import Mathlib

/-!
Shallow embedding of `util/ascii_keymap.py` (ASCII keyboard-layout renderer).

Python strings are modelled by Lean `String`; Python lists by Lean `List`.
Python string primitives (`strip`, `upper`, `replace(" ", "")`, `center`,
format-spec centering, `join`, repetition) are modelled by the `py*`
definitions below with CPython's exact semantics for ASCII input.
Arithmetic that can go negative in Python before being clamped is carried
out in `Int` and converted with `Int.toNat` (Python renders a string
repeated a negative number of times as the empty string).
Functions that can raise in Python are embedded with result type
`Option`, where `none` models the raised exception.
-/

namespace AsciiKeymap

/-- Python whitespace test used by `str.strip` (ASCII range). -/
def pyIsSpace (c : Char) : Bool :=
  c == ' ' || c == '\t' || c == '\n' || c == '\r' || c == '\x0b' || c == '\x0c'

/-- Python `s.strip()`: drop leading and trailing whitespace. -/
def pyStrip (s : String) : String :=
  ⟨((s.data.dropWhile pyIsSpace).reverse.dropWhile pyIsSpace).reverse⟩

/-- Python `s.upper()` (ASCII letters). -/
def pyUpper (s : String) : String :=
  ⟨s.data.map Char.toUpper⟩

/-- Python `s.replace(" ", "")`: remove every space character. -/
def pyRemoveSpaces (s : String) : String :=
  ⟨s.data.filter (fun c => !(c == ' '))⟩

/-- `key.strip().upper().replace(" ", "")` — the normalization used by `format_key`. -/
def normalize (key : String) : String :=
  pyRemoveSpaces (pyUpper (pyStrip key))

/-- Python `s.center(width)`: CPython pads with
`left = marg / 2 + (marg & width & 1)` and returns `s` unchanged when
`width <= len(s)`. -/
def pyCenter (s : String) (width : Nat) : String :=
  if width ≤ s.length then s
  else
    let marg := width - s.length
    let lft := marg / 2 + (marg &&& width &&& 1)
    ⟨List.replicate lft ' ' ++ s.data ++ List.replicate (marg - lft) ' '⟩

/-- Python format-spec centering `f"{s:^width}"`: pads with `left = pad / 2`
(extra pad character on the right) and returns `s` unchanged when
`width <= len(s)`. -/
def fmtCenter (s : String) (width : Nat) : String :=
  if width ≤ s.length then s
  else
    let pad := width - s.length
    let lft := pad / 2
    ⟨List.replicate lft ' ' ++ s.data ++ List.replicate (pad - lft) ' '⟩

/-- Python `c * n` for a single character `c` (empty for non-positive `n`). -/
def pyRep (c : Char) (n : Nat) : String :=
  ⟨List.replicate n c⟩

/-- Python `sep.join(l)`. -/
def pyJoin (sep : String) : List String → String
  | [] => ""
  | [x] => x
  | x :: rest => x ++ sep ++ pyJoin sep rest

/-- Python `max(l)` for a list known non-empty, with a default for the
guarded empty case (`max(l) if l else d`). -/
def pyMax : List Nat → Nat → Nat
  | [], d => d
  | x :: xs, _ => xs.foldl max x

/-- `KEY_WIDTH = 8` (source line 4). -/
def KEY_WIDTH : Nat := 8

/-- `LAYER_KEYS` (source line 5). -/
def LAYER_KEYS : List String := ["MO(1)", "MO(2)", "MO(3)"]

/-- `TRANSPARENT_KEYS` (source line 6). -/
def TRANSPARENT_KEYS : List String := ["_______", "TRANSPARENT", "TRNS"]

/-- `format_key` (source lines 229-240).  `pressed_keys = []` models Python
`None` as well as the empty list: both are falsy, so `is_pressed` is false
for either. -/
def format_key (key : String) (pressed_keys : List String) : String :=
  let normalized_key := normalize key
  if pressed_keys ≠ [] ∧ normalized_key ∈ pressed_keys.map normalize then
    "  HLD   "
  else if normalized_key ∈ LAYER_KEYS then
    "[" ++ pyCenter key (KEY_WIDTH - 2) ++ "]"
  else if normalized_key ∈ TRANSPARENT_KEYS then
    "  ...   "
  else
    fmtCenter key KEY_WIDTH

/-- `format_row` (source lines 242-244). -/
def format_row (row : List String) (max_len : Nat) (pressed_keys : List String) : String :=
  let padded := row ++ List.replicate (max_len - row.length) ""
  "| " ++ pyJoin " | " (padded.map (fun k => format_key k pressed_keys)) ++ " |"

/-- `format_half_row` (source lines 306-312): empty labels are dropped by the
comprehension filter, then the list is padded with 9-space blanks up to
`width`. -/
def format_half_row (row : List String) (width : Nat) (pressed_keys : List String) : String :=
  let formatted_keys := (row.filter (fun k => !(k == ""))).map (fun k => format_key k pressed_keys)
  let formatted_keys := formatted_keys ++ List.replicate (width - formatted_keys.length) "         "
  "|" ++ pyJoin "|" formatted_keys ++ "|"

/-- `horizontal_bar` (source lines 314-315). -/
def horizontal_bar (width : Nat) : String :=
  "|" ++ pyJoin "|" (List.replicate width (pyRep '-' KEY_WIDTH)) ++ "|"

/-- `pad_half` (source lines 317-318). -/
def pad_half (row_half : List String) (width : Nat) : List String :=
  row_half ++ List.replicate (width - row_half.length) ""

/-! ### Uniform renderer (`generate_ascii_layer`, source lines 246-304)

The Python function accumulates the output lines in the list `layout` and
joins them with a newline at the end; the embedding builds the same list
of lines (`generate_ascii_layer_lines`) and joins it with `pyJoin`. -/

/-- `max_length` computation (source lines 259-264): maximum length of the
non-empty rows of `rows + ([thumbs] if thumbs else [])`, or 1 if every row
is empty. -/
def uniform_max_length (rows : List (List String)) (thumbs : List String) : Nat :=
  let all_rows := rows ++ (if !thumbs.isEmpty then [thumbs] else [])
  if !all_rows.isEmpty && all_rows.any (fun r => !r.isEmpty) then
    pyMax ((all_rows.filter (fun r => !r.isEmpty)).map List.length) 1
  else 1

/-- `actual_width` computation (source lines 266-271): length of a sample
formatted first row when it exists and is non-empty, otherwise the
independent formula `(KEY_WIDTH + 3) * max_length - 1`. -/
def uniform_actual_width (rows : List (List String)) (thumbs : List String)
    (pressed_keys : List String) : Nat :=
  let max_length := uniform_max_length rows thumbs
  match rows with
  | row0 :: _ =>
      if !row0.isEmpty then (format_row row0 max_length pressed_keys).length
      else (KEY_WIDTH + 3) * max_length - 1
  | [] => (KEY_WIDTH + 3) * max_length - 1

/-- Row lines with inter-row separators (source lines 277-282): a separator
follows every row except the last. -/
def uniform_rows_lines (max_length actual_width : Nat) (pressed_keys : List String) :
    List (List String) → List String
  | [] => []
  | [row] => [" * " ++ format_row row max_length pressed_keys]
  | row :: rest =>
      (" * " ++ format_row row max_length pressed_keys)
        :: (" * |" ++ pyRep '-' (actual_width - 2) ++ "|")
        :: uniform_rows_lines max_length actual_width pressed_keys rest

/-- The bordered main block (source lines 274-285): top border, row lines
with separators, bottom border. -/
def uniform_main_block (rows : List (List String)) (max_length actual_width : Nat)
    (pressed_keys : List String) : List String :=
  (" * ," ++ pyRep '-' (actual_width - 2) ++ ".")
    :: uniform_rows_lines max_length actual_width pressed_keys rows
    ++ [" * `" ++ pyRep '-' (actual_width - 2) ++ "\x27"]

/-- Thumb-cluster lines of the uniform renderer (source lines 288-301). -/
def uniform_thumb_lines (thumbs : List String) (actual_width : Nat)
    (pressed_keys : List String) : List String :=
  if !thumbs.isEmpty then
    let formatted_thumbs := (thumbs.filter (fun k => !(k == ""))).map
      (fun k => format_key k pressed_keys)
    let thumb_string := pyJoin " | " formatted_thumbs
    let thumb_width := thumb_string.length + 2
    -- Python floor-divides `(actual_width - thumb_width) // 2` in Int and then
    -- clamps negatives to 0; truncated Nat subtraction yields the same value.
    let left_padding := (actual_width - thumb_width) / 2
    let centered_thumb_row := pyRep ' ' left_padding ++ "| " ++ thumb_string ++ " |"
    let thumb_border := pyRep ' ' left_padding ++ "`" ++ pyRep '-' thumb_width ++ "\x27"
    [" *" ++ centered_thumb_row, " *" ++ thumb_border]
  else []

/-- `generate_ascii_layer`, as its list of output lines (source lines 246-304). -/
def generate_ascii_layer_lines (name : String) (rows : List (List String))
    (thumbs : List String) (pressed_keys : List String) : List String :=
  if rows.isEmpty && thumbs.isEmpty then
    ["/*", " * " ++ name, " * No keys defined for this layer", " */"]
  else
    let max_length := uniform_max_length rows thumbs
    let actual_width := uniform_actual_width rows thumbs pressed_keys
    ["/*", " * " ++ name]
      ++ uniform_main_block rows max_length actual_width pressed_keys
      ++ uniform_thumb_lines thumbs actual_width pressed_keys
      ++ [" */"]

/-- `generate_ascii_layer` (source lines 246-304). -/
def generate_ascii_layer (name : String) (rows : List (List String))
    (thumbs : List String) (pressed_keys : List String) : String :=
  pyJoin "\n" (generate_ascii_layer_lines name rows thumbs pressed_keys)

/-! ### Split renderer (`generate_split_ascii_layer`, source lines 320-437)

The Python function reads the loop variable `left` after the row loop
(source line 405); when `rows` is empty and `thumbs` is not, that variable
was never assigned and Python raises `UnboundLocalError`.  The embedding
returns `none` exactly there. -/

/-- Thumb sub-cluster sizing, `left_count = (total_thumbs + 1) // 2`
(source lines 397-398 and 498-499). -/
def thumb_left_count (total_thumbs : Nat) : Nat :=
  (total_thumbs + 1) / 2

/-- `left_thumb = thumbs[:left_count]` (source lines 401 and 502). -/
def thumb_left (thumbs : List String) : List String :=
  thumbs.take (thumb_left_count thumbs.length)

/-- `right_thumb = thumbs[left_count:]` (source lines 402 and 503). -/
def thumb_right (thumbs : List String) : List String :=
  thumbs.drop (thumb_left_count thumbs.length)

/-- The two thumb-cluster lines shared verbatim by the split renderer
(source lines 404-434) and the totem renderer (source lines 505-534);
`gap_width` is `len(bottom_spacer)` of the calling renderer and `left`
is the residual value of the row loop variable of the same name. -/
def thumb_cluster_lines (thumbs left_ pressed_keys : List String) (gap_width : Nat) :
    List String :=
  let left_thumb := thumb_left thumbs
  let right_thumb := thumb_right thumbs
  let num_keys_indent : Int := (left_.length : Int) - (left_thumb.length : Int) + 1
  let thumb_indent := pyRep ' ' (num_keys_indent * ((KEY_WIDTH : Int) + 1)).toNat
  let left_formatted_keys := (left_thumb.filter (fun k => !(k == ""))).map
    (fun k => format_key k pressed_keys)
  let right_formatted_keys := (right_thumb.filter (fun k => !(k == ""))).map
    (fun k => format_key k pressed_keys)
  let left_thumb_str := pyJoin "|" left_formatted_keys
  let right_thumb_str := pyJoin "|" right_formatted_keys
  let left_formatted := if !(left_thumb_str == "") then "|" ++ left_thumb_str ++ "|" else ""
  let right_formatted := if !(right_thumb_str == "") then "|" ++ right_thumb_str ++ "|" else ""
  let center_gap := pyRep ' ' gap_width
  let left_bottom := if !(left_thumb_str == "") then
      "`" ++ pyRep '-' (left_formatted.length - 2) ++ "/" else ""
  let right_bottom := if !(right_thumb_str == "") then
      "\\" ++ pyRep '-' (right_formatted.length - 2) ++ "\x27" else ""
  [" * " ++ thumb_indent ++ left_formatted ++ center_gap ++ right_formatted,
   " * " ++ thumb_indent ++ left_bottom ++ center_gap ++ right_bottom]

/-- The `"CCW/CW"` display strings of the two encoders (source lines 354-359). -/
def split_encoder_displays (encoders : List (List String)) : String × String :=
  let left_encoder := encoders.getD 0 ["", ""]
  let right_encoder := encoders.getD 1 ["", ""]
  (if 2 ≤ left_encoder.length then
      left_encoder.getD 0 "" ++ "/" ++ left_encoder.getD 1 "" else "",
   if 2 ≤ right_encoder.length then
      right_encoder.getD 0 "" ++ "/" ++ right_encoder.getD 1 "" else "")

/-- One main-row line of the split renderer (source lines 350-366): the row is
split at `split_at`; encoder cells are spliced in only when `i == 3` and
encoder data is present. -/
def split_row_line (spacer : String) (left_width right_width split_at i : Nat)
    (row : List String) (encoders : List (List String)) (pressed_keys : List String) : String :=
  let row_split := split_at
  let left_ := if 0 < row.length then row.take row_split else []
  let right_ := if row_split < row.length then row.drop row_split else []
  if i == 3 && !encoders.isEmpty then
    let displays := split_encoder_displays encoders
    let left_with_encoder := if !(displays.1 == "") then left_ ++ [displays.1] else left_
    let right_with_encoder := if !(displays.2 == "") then [displays.2] ++ right_ else right_
    " * " ++ format_half_row left_with_encoder
        (left_width + (if !(displays.1 == "") then 1 else 0)) pressed_keys
      ++ spacer
      ++ format_half_row right_with_encoder
        (right_width + (if !(displays.2 == "") then 1 else 0)) pressed_keys
  else
    " * " ++ format_half_row left_ left_width pressed_keys
      ++ spacer ++ format_half_row right_ right_width pressed_keys

/-- Cell counts of the separator emitted after row `i` (source lines 369-378):
the separator is widened only when the NEXT row is row 3 and encoder data is
present, and then only on a side whose encoder pair is a non-empty list with
at least one non-empty label. -/
def split_sep_widths (left_width right_width i : Nat) (encoders : List (List String)) :
    Nat × Nat :=
  if (i + 1) == 3 && !encoders.isEmpty then
    let left_has_encoder := 0 < encoders.length && !(encoders.getD 0 []).isEmpty
      && (encoders.getD 0 []).any (fun s => !(s == ""))
    let right_has_encoder := 1 < encoders.length && !(encoders.getD 1 []).isEmpty
      && (encoders.getD 1 []).any (fun s => !(s == ""))
    (left_width + (if left_has_encoder then 1 else 0),
     right_width + (if right_has_encoder then 1 else 0))
  else (left_width, right_width)

/-- The separator line emitted after row `i` (source lines 380-386). -/
def split_separator_line (spacer : String) (left_width right_width i : Nat)
    (encoders : List (List String)) : String :=
  let widths := split_sep_widths left_width right_width i encoders
  " * " ++ ("|" ++ pyJoin "|" (List.replicate widths.1 (pyRep '-' KEY_WIDTH)) ++ "|")
    ++ spacer
    ++ ("|" ++ pyJoin "|" (List.replicate widths.2 (pyRep '-' KEY_WIDTH)) ++ "|")

/-- The row loop of the split renderer (source lines 349-386), emitting a row
line for each row and a separator after every row but the last. -/
def split_rows_lines (spacer : String) (left_width right_width split_at : Nat)
    (encoders : List (List String)) (pressed_keys : List String) :
    Nat → List (List String) → List String
  | _, [] => []
  | i, [row] => [split_row_line spacer left_width right_width split_at i row encoders pressed_keys]
  | i, row :: rest =>
      split_row_line spacer left_width right_width split_at i row encoders pressed_keys
        :: split_separator_line spacer left_width right_width i encoders
        :: split_rows_lines spacer left_width right_width split_at encoders pressed_keys (i + 1) rest

/-- `generate_split_ascii_layer`, as its list of output lines (source lines
320-437).  `none` models the `UnboundLocalError` raised on line 405 when the
row loop never ran (`rows == []`) and a thumb cluster is present. -/
def generate_split_ascii_layer_lines (name : String) (rows : List (List String))
    (thumbs : List String) (encoders : List (List String)) (pressed_keys : List String)
    (split_at : Nat) : Option (List String) :=
  let spacer := pyRep ' ' (KEY_WIDTH * 5)
  if rows.isEmpty && thumbs.isEmpty then
    some ["/*", " * " ++ name, " * No keys defined for this layer", " */"]
  else
    let left_widths := rows.map (fun row => if row.isEmpty then 0 else min split_at row.length)
    let right_widths := rows.map (fun row => if row.isEmpty then 0 else row.length - split_at)
    let left_width := pyMax left_widths split_at
    let right_width := pyMax right_widths 6
    let top_border_left := "," ++ pyRep '-' ((KEY_WIDTH + 1) * left_width - 1) ++ "."
    let top_border_right := "," ++ pyRep '-' ((KEY_WIDTH + 1) * right_width - 1) ++ "."
    let main_layout_width := (KEY_WIDTH + 1) * left_width
    let bottom_left := "`" ++ pyRep '-' main_layout_width ++ pyRep '-' KEY_WIDTH ++ "\\"
    let bottom_spacer := pyRep ' ' (KEY_WIDTH * 3 - 2)
    let bottom_right := "/" ++ pyRep '-' KEY_WIDTH
      ++ pyRep '-' ((KEY_WIDTH + 1) * right_width) ++ "\x27"
    let base := ["/*", " * " ++ name, " * " ++ top_border_left ++ spacer ++ top_border_right]
      ++ split_rows_lines spacer left_width right_width split_at encoders pressed_keys 0 rows
      ++ [" * " ++ bottom_left ++ bottom_spacer ++ bottom_right]
    if thumbs.isEmpty then some (base ++ [" */"])
    else
      match rows.getLast? with
      | none => none
      | some last_row =>
          let left_ := if 0 < last_row.length then last_row.take split_at else []
          some (base ++ thumb_cluster_lines thumbs left_ pressed_keys bottom_spacer.length
            ++ [" */"])

/-- `generate_split_ascii_layer` (source lines 320-437). -/
def generate_split_ascii_layer (name : String) (rows : List (List String))
    (thumbs : List String) (encoders : List (List String)) (pressed_keys : List String)
    (split_at : Nat) : Option String :=
  (generate_split_ascii_layer_lines name rows thumbs encoders pressed_keys split_at).map
    (pyJoin "\n")

/-! ### Totem renderer (`generate_totem_ascii_layer`, source lines 439-537)

Like the split renderer, the thumb-cluster block reads the row loop
variable `left` (source line 505); it holds the value left by the last of
the three row blocks that executed and is unbound when `rows` is empty,
in which case Python raises `UnboundLocalError` (modelled by `none`). -/

/-- `generate_totem_ascii_layer`, as its list of output lines. -/
def generate_totem_ascii_layer_lines (name : String) (rows : List (List String))
    (thumbs : List String) (pressed_keys : List String) : Option (List String) :=
  let spacer := pyRep ' ' (KEY_WIDTH * 5)
  if rows.isEmpty && thumbs.isEmpty then
    some ["/*", " * " ++ name, " * No keys defined for this layer", " */"]
  else
    let indent_chars := (KEY_WIDTH + 1) * 1
    let row_indent := pyRep ' ' indent_chars
    let row0 := rows.getD 0 []
    let row1 := rows.getD 1 []
    let row2 := rows.getD 2 []
    let row_1_width := min 5 (if 0 < rows.length then row0.length else 0)
    let row_2_width := min 5 (if 1 < rows.length then row1.length else 0)
    let row_3_left_width := min 6 (if 2 < rows.length then row2.length else 0)
    let row_3_right_width := if 2 < rows.length then row2.length - 6 else 0
    let top_border_left := "," ++ pyRep '-' ((KEY_WIDTH + 1) * row_1_width - 1) ++ "."
    let top_border_right := "," ++ pyRep '-' ((KEY_WIDTH + 1) * row_1_width - 1) ++ "."
    let block1 :=
      if 0 < rows.length then
        let left_ := if !row0.isEmpty then row0.take 5 else []
        let right_ := if !row0.isEmpty && 5 < row0.length then (row0.drop 5).take 5 else []
        [" * " ++ row_indent ++ format_half_row left_ row_1_width pressed_keys
           ++ spacer ++ format_half_row right_ row_1_width pressed_keys,
         " * " ++ row_indent ++ horizontal_bar row_1_width
           ++ spacer ++ horizontal_bar row_1_width]
      else []
    let block2 :=
      if 1 < rows.length then
        let left_ := if !row1.isEmpty then row1.take 5 else []
        let right_ := if !row1.isEmpty && 5 < row1.length then (row1.drop 5).take 5 else []
        let left_slant := "/" ++ pyRep '-' KEY_WIDTH
        let right_slant := pyRep '-' KEY_WIDTH ++ "\\"
        [" * " ++ row_indent ++ format_half_row left_ row_2_width pressed_keys
           ++ spacer ++ format_half_row right_ row_2_width pressed_keys,
         " * " ++ left_slant ++ horizontal_bar row_1_width
           ++ spacer ++ horizontal_bar row_1_width ++ right_slant]
      else []
    let block3 :=
      if 2 < rows.length then
        let left_ := if !row2.isEmpty then row2.take 6 else []
        let right_ := if !row2.isEmpty && 6 < row2.length then row2.drop 6 else []
        [" * " ++ format_half_row left_ row_3_left_width pressed_keys
           ++ spacer ++ format_half_row right_ row_3_right_width pressed_keys]
      else []
    let bottom_left_width := (KEY_WIDTH + 1) * row_3_left_width + KEY_WIDTH
    let bottom_right_width := (KEY_WIDTH + 1) * row_3_right_width + KEY_WIDTH
    let bottom_left := "`" ++ pyRep '-' bottom_left_width ++ "\\"
    let bottom_spacer := pyRep ' ' (KEY_WIDTH * 3 - 1)
    let bottom_right := "/" ++ pyRep '-' bottom_right_width ++ "\x27"
    let base := ["/*", " * " ++ name,
        " * " ++ row_indent ++ top_border_left ++ spacer ++ top_border_right]
      ++ block1 ++ block2 ++ block3
      ++ [" * " ++ bottom_left ++ bottom_spacer ++ bottom_right]
    if thumbs.isEmpty then some (base ++ [" */"])
    else
      -- the residual value of the loop variable `left` at source line 505
      let left_opt : Option (List String) :=
        if 2 < rows.length then some (if !row2.isEmpty then row2.take 6 else [])
        else if 1 < rows.length then some (if !row1.isEmpty then row1.take 5 else [])
        else if 0 < rows.length then some (if !row0.isEmpty then row0.take 5 else [])
        else none
      match left_opt with
      | none => none
      | some left_ =>
          some (base ++ thumb_cluster_lines thumbs left_ pressed_keys bottom_spacer.length
            ++ [" */"])

/-- `generate_totem_ascii_layer` (source lines 439-537). -/
def generate_totem_ascii_layer (name : String) (rows : List (List String))
    (thumbs : List String) (pressed_keys : List String) : Option String :=
  (generate_totem_ascii_layer_lines name rows thumbs pressed_keys).map (pyJoin "\n")

/-! ### Orchestrator (`generate_for_keyboard`, source lines 539-592)

The Python input is a nested dict; the embedding gives it an explicit
shape.  `config` models the optional `"config"` entry (`split_at = none`
models an absent `"split_at"` key, for which `config.get("split_at", 6)`
yields the default 6).  `layers` models the value of the optional
`"layers"` key and `direct` the layer entries stored directly on the
mapping (the legacy shape), in insertion order and excluding the
`"config"` entry, which is a separate dict key. -/

structure ConfigData where
  is_split : Bool
  split_at : Option Nat

structure LayerData where
  rows : List (List String)
  thumbs : List String
  encoders : List (List String)
  pressed : List String

structure KeyboardData where
  config : Option ConfigData
  layers : List (String × LayerData)
  direct : List (String × LayerData)

/-- The renderer dispatch inside the layer loop (source lines 564-589). -/
def render_layer (keyboard : String) (is_split : Bool) (current_split : Nat)
    (layer_name : String) (layer_data : LayerData) : Option String :=
  let title := pyUpper keyboard ++ " - " ++ pyUpper layer_name ++ " Layer"
  if is_split then
    if keyboard == "totem" then
      generate_totem_ascii_layer title layer_data.rows layer_data.thumbs layer_data.pressed
    else
      generate_split_ascii_layer title layer_data.rows layer_data.thumbs
        layer_data.encoders layer_data.pressed current_split
  else
    some (generate_ascii_layer title layer_data.rows layer_data.thumbs layer_data.pressed)

/-- The layer loop (source lines 555-590): entries named `"config"` are
skipped, every rendered layer is followed by an empty line, and an
exception raised by a renderer propagates (maps to `none`). -/
def render_layers (keyboard : String) (is_split : Bool) (current_split : Nat) :
    List (String × LayerData) → Option (List String)
  | [] => some []
  | (layer_name, layer_data) :: rest =>
      if layer_name == "config" then
        render_layers keyboard is_split current_split rest
      else
        match render_layer keyboard is_split current_split layer_name layer_data with
        | none => none
        | some s =>
            (render_layers keyboard is_split current_split rest).map
              (fun out => s :: "" :: out)

/-- `generate_for_keyboard` (source lines 539-592).  `split_index = some 0`
behaves like `none` because Python evaluates `split_index or default_split`
by truthiness. -/
def generate_for_keyboard (keyboard : String) (keyboard_data : KeyboardData)
    (split_index : Option Nat) : Option String :=
  let is_split := (keyboard_data.config.map ConfigData.is_split).getD false
  let default_split := ((keyboard_data.config.map ConfigData.split_at).getD none).getD 6
  let current_split := match split_index with
    | none => default_split
    | some n => if n == 0 then default_split else n
  let layers := if !keyboard_data.layers.isEmpty then keyboard_data.layers
    else if keyboard_data.direct.any (fun e => e.1 == "base") then keyboard_data.direct
    else []
  (render_layers keyboard is_split current_split layers).map (pyJoin "\n")

/-! ### Helper lemmas -/

lemma length_mk (l : List Char) : (String.mk l).length = l.length := rfl

lemma str_append_empty (s : String) : s ++ "" = s := by
  cases s with
  | mk data => show String.mk (data ++ []) = String.mk data
               rw [List.append_nil]

lemma pyRep_length (c : Char) (n : Nat) : (pyRep c n).length = n := by
  simp [pyRep, length_mk]

lemma pyJoin_length_const (sep : String) (n : Nat) :
    ∀ l : List String, (∀ s ∈ l, s.length = n) →
      (pyJoin sep l).length = n * l.length + sep.length * (l.length - 1) := by
  intro l
  induction l with
  | nil => intro _; simp [pyJoin]
  | cons x xs ih =>
      intro hall
      cases xs with
      | nil => simpa [pyJoin] using hall x (List.mem_singleton.mpr rfl)
      | cons y ys =>
          have hx : x.length = n := hall x (List.mem_cons_self x (y :: ys))
          have hrest := ih (fun s hs => hall s (List.mem_cons_of_mem x hs))
          show (x ++ sep ++ pyJoin sep (y :: ys)).length = _
          rw [String.length_append, String.length_append, hx, hrest]
          simp only [List.length_cons, Nat.add_sub_cancel]
          ring

lemma pyCenter_length (s : String) (width : Nat) :
    (pyCenter s width).length = max s.length width := by
  unfold pyCenter
  split
  · rename_i h
    omega
  · rename_i h
    have hb : (width - s.length) &&& width &&& 1 ≤ 1 := Nat.and_le_right
    rw [length_mk]
    simp only [List.length_append, List.length_replicate]
    have hd : s.data.length = s.length := rfl
    omega

lemma fmtCenter_length (s : String) (width : Nat) :
    (fmtCenter s width).length = max s.length width := by
  unfold fmtCenter
  split
  · rename_i h
    omega
  · rename_i h
    rw [length_mk]
    simp only [List.length_append, List.length_replicate]
    have hd : s.data.length = s.length := rfl
    omega

lemma format_key_empty_length (pressed_keys : List String) :
    (format_key "" pressed_keys).length = 8 := by
  simp only [format_key]
  split
  · decide
  · decide

lemma foldl_max_init_le (l : List Nat) (a : Nat) : a ≤ l.foldl max a := by
  induction l generalizing a with
  | nil => exact le_refl a
  | cons x xs ih => exact le_trans (le_max_left a x) (ih (max a x))

lemma le_foldl_max (l : List Nat) (a x : Nat) (hx : x ∈ l) : x ≤ l.foldl max a := by
  induction l generalizing a with
  | nil => cases hx
  | cons y ys ih =>
      rcases List.mem_cons.mp hx with rfl | hmem
      · exact le_trans (le_max_right a x) (foldl_max_init_le ys (max a x))
      · exact ih (max a y) hmem

lemma le_pyMax (l : List Nat) (d x : Nat) (hx : x ∈ l) : x ≤ pyMax l d := by
  cases l with
  | nil => cases hx
  | cons y ys =>
      rcases List.mem_cons.mp hx with rfl | hmem
      · exact foldl_max_init_le ys x
      · exact le_foldl_max ys y x hmem

lemma uniform_max_length_ge (rows : List (List String)) (thumbs : List String)
    (r : List String) (hr : r ∈ rows) : r.length ≤ uniform_max_length rows thumbs := by
  by_cases hre : r = []
  · subst hre; simp
  · unfold uniform_max_length
    have hmemall : r ∈ rows ++ (if !thumbs.isEmpty then [thumbs] else []) :=
      List.mem_append_left _ hr
    have hrne : (!r.isEmpty) = true := by
      simp [List.isEmpty_iff, hre]
    have hany : (rows ++ (if !thumbs.isEmpty then [thumbs] else [])).any
        (fun x => !x.isEmpty) = true :=
      List.any_eq_true.mpr ⟨r, hmemall, hrne⟩
    have hne : (rows ++ (if !thumbs.isEmpty then [thumbs] else [])).isEmpty = false := by
      cases rows with
      | nil => cases hr
      | cons a as => rfl
    simp only [hne, hany, Bool.not_false, Bool.and_self, if_pos]
    exact le_pyMax _ _ _
      (List.mem_map_of_mem List.length (List.mem_filter.mpr ⟨hmemall, hrne⟩))

lemma format_row_length (row : List String) (max_len : Nat) (pressed_keys : List String)
    (hle : row.length ≤ max_len) (hM : 1 ≤ max_len)
    (hc : ∀ k ∈ row, (format_key k pressed_keys).length = 8) :
    (format_row row max_len pressed_keys).length = 11 * max_len + 1 := by
  unfold format_row
  have hall : ∀ s ∈ (row ++ List.replicate (max_len - row.length) "").map
      (fun k => format_key k pressed_keys), s.length = 8 := by
    intro s hs
    rcases List.mem_map.mp hs with ⟨k, hk, rfl⟩
    rcases List.mem_append.mp hk with h | h
    · exact hc k h
    · have hk0 : k = "" := List.eq_of_mem_replicate h
      subst hk0
      exact format_key_empty_length pressed_keys
  have hjoin := pyJoin_length_const " | " 8 _ hall
  have hlen : ((row ++ List.replicate (max_len - row.length) "").map
      (fun k => format_key k pressed_keys)).length = max_len := by
    simp [List.length_append, List.length_replicate]
    omega
  rw [String.length_append, String.length_append, hjoin, hlen]
  rw [show ("| " : String).length = 2 from rfl, show (" |" : String).length = 2 from rfl,
    show (" | " : String).length = 3 from rfl]
  omega

lemma uniform_rows_lines_length (max_len width : Nat) (pressed_keys : List String)
    (hW : width = 11 * max_len + 1) (hM : 1 ≤ max_len) :
    ∀ rows : List (List String),
      (∀ r ∈ rows, (format_row r max_len pressed_keys).length = 11 * max_len + 1) →
      ∀ s ∈ uniform_rows_lines max_len width pressed_keys rows, s.length = 11 * max_len + 4 := by
  intro rows
  induction rows with
  | nil => intro _ s hs; cases hs
  | cons r rest ih =>
      intro hall s hs
      cases rest with
      | nil =>
          rcases List.mem_singleton.mp hs with rfl
          rw [String.length_append, show (" * " : String).length = 3 from rfl,
            hall r (List.mem_cons_self r [])]
          omega
      | cons r2 rest2 =>
          rcases List.mem_cons.mp hs with rfl | hs2
          · rw [String.length_append, show (" * " : String).length = 3 from rfl,
              hall r (List.mem_cons_self r (r2 :: rest2))]
            omega
          · rcases List.mem_cons.mp hs2 with rfl | hs3
            · rw [String.length_append, String.length_append,
                show (" * |" : String).length = 4 from rfl,
                show ("|" : String).length = 1 from rfl, pyRep_length]
              omega
            · exact ih (fun x hx => hall x (List.mem_cons_of_mem r hx)) s hs3

/-! ### Claims -/

/-- C1: the spec promises a total rendering core ("never fail the build"),
explicitly including the case of empty `rows` with non-empty `thumbs`.  The
split and totem renderers contradict this: with `rows = []` and a non-empty
thumb cluster, source lines 405 and 505 read the loop variable `left`
before any assignment, so Python raises `UnboundLocalError` (modelled here
by `none`). -/
theorem c1_split_totem_raise_on_empty_rows :
    generate_split_ascii_layer "L" [] ["A"] [] [] 6 = none
    ∧ generate_totem_ascii_layer "L" [] ["A"] [] = none := by
  constructor <;> decide

/-- C4: the pressed check outranks the layer-key check in `format_key`:
whenever the normalized label is in the normalized pressed set and is a
layer-key alias, the result is the literal marker `"  HLD   "`. -/
theorem c4_pressed_outranks_layer_key (key : String) (pressed_keys : List String)
    (hp : normalize key ∈ pressed_keys.map normalize)
    (_hl : normalize key ∈ LAYER_KEYS) :
    format_key key pressed_keys = "  HLD   " := by
  have hne : pressed_keys ≠ [] := by
    intro h
    subst h
    simp at hp
  simp only [format_key]
  rw [if_pos ⟨hne, hp⟩]

/-- C4 witness: `format_key "MO(1)" ["MO(1)"]` yields the marker. -/
theorem c4_pressed_outranks_layer_key_witness :
    format_key "MO(1)" ["MO(1)"] = "  HLD   " :=
  c4_pressed_outranks_layer_key "MO(1)" ["MO(1)"] (by decide) (by decide)

/-- Transparent-alias rendering is independent of the literal label text:
`format_key` returns the fixed glyph as soon as the normalization is a
transparent alias. -/
lemma format_key_transparent_of_normalize (label : String)
    (h : normalize label ∈ TRANSPARENT_KEYS) : format_key label [] = "  ...   " := by
  have hmem : normalize label = "_______" ∨ normalize label = "TRANSPARENT"
      ∨ normalize label = "TRNS" := by
    simpa [TRANSPARENT_KEYS] using h
  simp only [format_key]
  rcases hmem with h1 | h1 | h1 <;>
    rw [h1] <;>
    rw [if_neg (by decide), if_neg (by decide), if_pos (by decide)]

/-- C3 (amended): normalization-equivalence invariance of `format_key`
holds for the transparent-key aliases: if two labels have the same
normalization and that normalization is a transparent alias, they format
identically.  (For layer-key aliases it fails, see the counterexample: the
bracketed rendering embeds the original label text.) -/
theorem c3_transparent_format_normalize_invariant (label1 label2 : String)
    (hn : normalize label1 = normalize label2)
    (ht : normalize label1 ∈ TRANSPARENT_KEYS) :
    format_key label1 [] = format_key label2 [] := by
  rw [format_key_transparent_of_normalize label1 ht,
    format_key_transparent_of_normalize label2 (hn ▸ ht)]

/-- C3 witness: `"trns"` and `" TRNS "` normalize identically to a
transparent alias and format identically. -/
theorem c3_transparent_format_normalize_invariant_witness :
    format_key "trns" [] = format_key " TRNS " [] :=
  c3_transparent_format_normalize_invariant "trns" " TRNS " (by decide) (by decide)

/-- C3 counterexample: `"mo(1)"` and `"MO(1)"` differ only in case and have
the same layer-key normalization, yet format differently — the layer-key
branch centers the original label, so the claim fails for layer-key
aliases. -/
theorem c3_layer_alias_not_normalize_invariant :
    normalize "mo(1)" = normalize "MO(1)"
    ∧ normalize "MO(1)" ∈ LAYER_KEYS
    ∧ format_key "mo(1)" [] ≠ format_key "MO(1)" [] := by
  refine ⟨by decide, by decide, by decide⟩

/-- C7: the thumb sub-cluster split used by the split and totem renderers
is a pure function of the count: the left sub-cluster is the first
`ceil(n/2) = (n+1)/2` keys, the right one the rest, and the two concatenate
back to the whole cluster. -/
theorem c7_thumb_split_counts (thumbs : List String) :
    (thumb_left thumbs).length = (thumbs.length + 1) / 2
    ∧ (thumb_left thumbs).length + (thumb_right thumbs).length = thumbs.length
    ∧ thumb_left thumbs ++ thumb_right thumbs = thumbs := by
  refine ⟨?_, ?_, ?_⟩
  · simp only [thumb_left, thumb_left_count, List.length_take]
    omega
  · simp only [thumb_left, thumb_right, thumb_left_count, List.length_take, List.length_drop]
    omega
  · exact List.take_append_drop _ thumbs

/-- C9: rendering is deterministic — all four entry points of the embedded
renderer are pure functions of their arguments, so two renders of the same
input are identical. -/
theorem c9_rendering_deterministic :
    ∀ (keyboard : String) (keyboard_data : KeyboardData) (split_index : Option Nat)
      (name : String) (rows : List (List String)) (thumbs : List String)
      (encoders : List (List String)) (pressed_keys : List String) (split_at : Nat),
      generate_for_keyboard keyboard keyboard_data split_index
          = generate_for_keyboard keyboard keyboard_data split_index
      ∧ generate_ascii_layer name rows thumbs pressed_keys
          = generate_ascii_layer name rows thumbs pressed_keys
      ∧ generate_split_ascii_layer name rows thumbs encoders pressed_keys split_at
          = generate_split_ascii_layer name rows thumbs encoders pressed_keys split_at
      ∧ generate_totem_ascii_layer name rows thumbs pressed_keys
          = generate_totem_ascii_layer name rows thumbs pressed_keys :=
  fun _ _ _ _ _ _ _ _ _ => ⟨rfl, rfl, rfl, rfl⟩

/-- C10: in `format_half_row` (used by the split and totem renderers) empty
labels are dropped before formatting, so later keys shift left; the blank
padding appended to reach the target width is 9 spaces per cell, one wider
than a formatted 8-character key cell. -/
theorem c10_half_row_drops_empty_labels :
    (∀ (row : List String) (width : Nat) (pressed_keys : List String),
        format_half_row row width pressed_keys
          = format_half_row (row.filter (fun k => !(k == ""))) width pressed_keys)
    ∧ format_half_row ["", "A"] 2 [] = "|   A    |         |"
    ∧ ("         " : String).length = 9
    ∧ (format_key "A" []).length = 8 := by
  refine ⟨?_, by decide, by decide, by decide⟩
  intro row width pressed_keys
  simp [format_half_row, List.filter_filter]

/-- C8 (amended): `format_key` returns exactly 8 characters for every
pressed set and every label of length at most 8 — at most 6 when the label
normalizes to a layer-key alias, since the bracketed rendering centers the
original label in 6 columns; and the empty label yields 8 spaces provided
no pressed entry normalizes to the empty string.  (Unrestricted, the claim
fails: see the counterexample with a 9-character label, whose rendering is
the label itself.) -/
theorem c8_format_key_fixed_width (key : String) (pressed_keys other_pressed : List String)
    (h8 : key.length ≤ 8)
    (h6 : normalize key ∈ LAYER_KEYS → key.length ≤ 6)
    (hother : "" ∉ other_pressed.map normalize) :
    (format_key key pressed_keys).length = 8
    ∧ format_key "" other_pressed = "        " := by
  constructor
  · simp only [format_key]
    split
    · decide
    · split
      · rename_i hmem
        have h6' := h6 hmem
        rw [String.length_append, String.length_append, pyCenter_length,
          show ("[" : String).length = 1 from rfl, show ("]" : String).length = 1 from rfl,
          show KEY_WIDTH - 2 = 6 from rfl]
        omega
      · split
        · decide
        · rw [fmtCenter_length, show KEY_WIDTH = 8 from rfl]
          omega
  · simp only [format_key]
    split
    · rename_i hcond
      exfalso
      have h0 : normalize "" = "" := rfl
      rw [h0] at hcond
      exact hother hcond.2
    · decide

/-- C8 witness: a 5-character layer alias and an ordinary pressed set give
an 8-character cell, and the empty label gives 8 spaces. -/
theorem c8_format_key_fixed_width_witness :
    (format_key "MO(1)" ["MO(2)"]).length = 8 ∧ format_key "" ["A"] = "        " :=
  c8_format_key_fixed_width "MO(1)" ["MO(2)"] ["A"] (by decide) (fun _ => by decide) (by decide)

/-- C8 counterexample: a label longer than 8 characters is rendered as
itself (9 characters), and the empty label renders as the HLD marker — not
8 spaces — when some pressed entry normalizes to the empty string. -/
theorem c8_format_key_width_violations :
    (format_key "ABCDEFGHI" []).length = 9
    ∧ format_key "" [" "] = "  HLD   " := by
  constructor <;> decide

/-- C2 (amended): in every block emitted by the uniform renderer whose
FIRST row is non-empty and whose key cells all format to the standard
8-character width, the top border, every row line, every inter-row
separator and the bottom border have the same width, equal to the measured
length of a fully formatted content row (`" * " ++ format_row rows[0]
max_length`); and the emitted layer is exactly this block between header
and thumb/footer lines.  (Without the first-row restriction the claim
fails: the fallback width formula `11 * max_length - 1` is 2 less than
the measured row width — see the counterexample.) -/
theorem c2_uniform_border_width_matches_row (name : String) (row0 : List String)
    (rest : List (List String)) (thumbs pressed_keys : List String)
    (h0 : row0 ≠ [])
    (hcells : ∀ r ∈ row0 :: rest, ∀ k ∈ r, (format_key k pressed_keys).length = 8) :
    ((uniform_main_block (row0 :: rest) (uniform_max_length (row0 :: rest) thumbs)
        (uniform_actual_width (row0 :: rest) thumbs pressed_keys) pressed_keys).all
      (fun s => s.length
        == 3 + (format_row row0 (uniform_max_length (row0 :: rest) thumbs)
            pressed_keys).length)) = true
    ∧ generate_ascii_layer_lines name (row0 :: rest) thumbs pressed_keys
      = ["/*", " * " ++ name]
        ++ uniform_main_block (row0 :: rest) (uniform_max_length (row0 :: rest) thumbs)
            (uniform_actual_width (row0 :: rest) thumbs pressed_keys) pressed_keys
        ++ uniform_thumb_lines thumbs
            (uniform_actual_width (row0 :: rest) thumbs pressed_keys) pressed_keys
        ++ [" */"] := by
  have hM0 : row0.length ≤ uniform_max_length (row0 :: rest) thumbs :=
    uniform_max_length_ge (row0 :: rest) thumbs row0 (List.mem_cons_self row0 rest)
  have hM : 1 ≤ uniform_max_length (row0 :: rest) thumbs := by
    have : 0 < row0.length := List.length_pos.mpr h0
    omega
  set M := uniform_max_length (row0 :: rest) thumbs with hMdef
  have hrow : ∀ r ∈ row0 :: rest, (format_row r M pressed_keys).length = 11 * M + 1 :=
    fun r hr => format_row_length r M pressed_keys
      (uniform_max_length_ge (row0 :: rest) thumbs r hr) hM (hcells r hr)
  have hW : uniform_actual_width (row0 :: rest) thumbs pressed_keys = 11 * M + 1 := by
    unfold uniform_actual_width
    cases row0 with
    | nil => exact absurd rfl h0
    | cons a as =>
        show (if !(a :: as).isEmpty then
            (format_row (a :: as) M pressed_keys).length else (KEY_WIDTH + 3) * M - 1)
          = 11 * M + 1
        rw [if_pos (by rfl)]
        exact hrow (a :: as) (List.mem_cons_self _ rest)
  refine ⟨?_, ?_⟩
  · rw [List.all_eq_true]
    intro s hs
    rw [beq_iff_eq, hrow row0 (List.mem_cons_self row0 rest)]
    unfold uniform_main_block at hs
    rw [hW] at hs
    rcases List.mem_cons.mp hs with rfl | hs1
    · rw [String.length_append, String.length_append,
        show (" * ," : String).length = 4 from rfl, show ("." : String).length = 1 from rfl,
        pyRep_length]
      omega
    · rcases List.mem_append.mp hs1 with hs2 | hs3
      · have := uniform_rows_lines_length M (11 * M + 1) pressed_keys rfl hM
          (row0 :: rest) hrow s hs2
        omega
      · rcases List.mem_singleton.mp hs3 with rfl
        rw [String.length_append, String.length_append,
          show (" * `" : String).length = 4 from rfl,
          show ("\x27" : String).length = 1 from rfl, pyRep_length]
        omega
  · unfold generate_ascii_layer_lines
    rw [if_neg (by simp [h0])]

/-- C2 witness: the two-row scenario `[["A", "B"], ["C", "D"]]` — all four
border/row/separator lines measure `3 + len(format_row)` = 26. -/
theorem c2_uniform_border_width_matches_row_witness :
    ((uniform_main_block [["A", "B"], ["C", "D"]]
        (uniform_max_length [["A", "B"], ["C", "D"]] [])
        (uniform_actual_width [["A", "B"], ["C", "D"]] [] []) []).all
      (fun s => s.length
        == 3 + (format_row ["A", "B"]
            (uniform_max_length [["A", "B"], ["C", "D"]] []) []).length)) = true
    ∧ generate_ascii_layer_lines "L" [["A", "B"], ["C", "D"]] [] []
      = ["/*", " * " ++ "L"]
        ++ uniform_main_block [["A", "B"], ["C", "D"]]
            (uniform_max_length [["A", "B"], ["C", "D"]] [])
            (uniform_actual_width [["A", "B"], ["C", "D"]] [] []) []
        ++ uniform_thumb_lines [] (uniform_actual_width [["A", "B"], ["C", "D"]] [] []) []
        ++ [" */"] :=
  c2_uniform_border_width_matches_row "L" ["A", "B"] [["C", "D"]] [] []
    (by decide) (by decide)

/-- C2 counterexample: with `rows = []` and `thumbs = ["A"]` the uniform
renderer computes the border from the independent formula `11 * 1 - 1 = 10`
(top border line of length 13), while a fully formatted content row at the
block's max row length measures 12 (line of length 15) — the border does
NOT equal the measured width of a formatted row. -/
theorem c2_degenerate_border_diverges :
    ((generate_ascii_layer_lines "L" [] ["A"] []).get? 2).map String.length
      ≠ some ((" * " ++ format_row [] (uniform_max_length [] ["A"]) []).length) := by
  decide

/-- C5 (amended): renderer selection in the orchestrator tests
`config.is_split` FIRST: a split keyboard named `"totem"` gets the Totem
renderer, any other split keyboard the Split renderer, and every non-split
keyboard — "totem" included — the Uniform renderer.  (The claim's "Totem
regardless of is_split" fails, see the counterexample.) -/
lemma render_layers_single (keyboard : String) (is_split : Bool) (current_split : Nat)
    (layer_name : String) (layer_data : LayerData)
    (h : (layer_name == "config") = false) :
    (render_layers keyboard is_split current_split [(layer_name, layer_data)]).map
        (pyJoin "\n")
      = (render_layer keyboard is_split current_split layer_name layer_data).map
          (fun s => s ++ "\n") := by
  simp only [render_layers, h, Bool.false_eq_true, if_false]
  cases render_layer keyboard is_split current_split layer_name layer_data with
  | none => rfl
  | some s => simp [pyJoin, str_append_empty]

theorem c5_renderer_selection (keyboard : String) (cfg : ConfigData)
    (layer_name : String) (layer_data : LayerData) (split_index : Option Nat)
    (hname : layer_name ≠ "config") :
    generate_for_keyboard keyboard ⟨some cfg, [(layer_name, layer_data)], []⟩ split_index
      = (let current_split := match split_index with
           | none => cfg.split_at.getD 6
           | some n => if n == 0 then cfg.split_at.getD 6 else n
         let title := pyUpper keyboard ++ " - " ++ pyUpper layer_name ++ " Layer"
         if cfg.is_split then
           if keyboard = "totem" then
             generate_totem_ascii_layer title layer_data.rows layer_data.thumbs
               layer_data.pressed
           else
             generate_split_ascii_layer title layer_data.rows layer_data.thumbs
               layer_data.encoders layer_data.pressed current_split
         else
           some (generate_ascii_layer title layer_data.rows layer_data.thumbs
             layer_data.pressed)).map (fun s => s ++ "\n") := by
  have hbeq : (layer_name == "config") = false := beq_eq_false_iff_ne.mpr hname
  have hunfold : generate_for_keyboard keyboard ⟨some cfg, [(layer_name, layer_data)], []⟩
        split_index
      = (render_layers keyboard cfg.is_split
          (match split_index with
            | none => cfg.split_at.getD 6
            | some n => if n == 0 then cfg.split_at.getD 6 else n)
          [(layer_name, layer_data)]).map (pyJoin "\n") := rfl
  rw [hunfold, render_layers_single keyboard cfg.is_split _ layer_name layer_data hbeq]
  show (render_layer keyboard cfg.is_split _ layer_name layer_data).map _ = _
  congr 1
  by_cases hsplit : cfg.is_split
  · by_cases hk : keyboard = "totem"
    · have hkb : (keyboard == "totem") = true := beq_iff_eq.mpr hk
      simp only [render_layer, hsplit, hkb, if_true, hk]
      rw [if_pos (by decide)]
    · have hkb : (keyboard == "totem") = false := beq_eq_false_iff_ne.mpr hk
      simp only [render_layer, hsplit, hkb, Bool.false_eq_true, if_false, if_true, hk]
  · simp only [render_layer, hsplit, Bool.false_eq_true, if_false]

/-- C5 witness: a split keyboard named "totem" is rendered by the Totem
renderer. -/
theorem c5_renderer_selection_witness :
    generate_for_keyboard "totem"
        ⟨some ⟨true, some 5⟩, [("base", ⟨[["Q"]], [], [], []⟩)], []⟩ none
      = (generate_totem_ascii_layer "TOTEM - BASE Layer" [["Q"]] [] []).map
          (fun s => s ++ "\n") := by
  have h := c5_renderer_selection "totem" ⟨true, some 5⟩ "base" ⟨[["Q"]], [], [], []⟩ none
    (by decide)
  simpa using h

/-- C5 counterexample: a keyboard named "totem" with `is_split = false` is
rendered by the UNIFORM renderer, whose output differs from the Totem
renderer's — so "Totem regardless of `config.is_split`" is false. -/
theorem c5_totem_name_requires_is_split :
    generate_for_keyboard "totem"
        ⟨some ⟨false, none⟩, [("base", ⟨[["Q"]], [], [], []⟩)], []⟩ none
      = some (generate_ascii_layer "TOTEM - BASE Layer" [["Q"]] [] [] ++ "\n")
    ∧ some (generate_ascii_layer "TOTEM - BASE Layer" [["Q"]] [] [] ++ "\n")
      ≠ (generate_totem_ascii_layer "TOTEM - BASE Layer" [["Q"]] [] []).map
          (fun s => s ++ "\n") := by
  constructor <;> decide

/-- C6 (amended): encoder data affects only row index 3 — every other row
line is rendered exactly as without encoders — and only the separator
emitted immediately ABOVE row 3 is widened; the separator emitted after any
row `j` with `j + 1 ≠ 3` (in particular `j = 3`, the separator immediately
BELOW the encoder row) keeps the base cell counts, so it does NOT widen to
match the encoder-bearing row.  (The claim's "above and below" fails, see
the counterexample.) -/
theorem c6_encoders_affect_only_row3_and_sep_above (spacer : String)
    (left_width right_width split_at i j : Nat) (row : List String)
    (encoders : List (List String)) (pressed_keys : List String)
    (hi : i ≠ 3) (hj : j + 1 ≠ 3) :
    split_row_line spacer left_width right_width split_at i row encoders pressed_keys
      = split_row_line spacer left_width right_width split_at i row [] pressed_keys
    ∧ split_sep_widths left_width right_width j encoders = (left_width, right_width) := by
  have hib : (i == 3) = false := beq_eq_false_iff_ne.mpr hi
  have hjb : (j + 1 == 3) = false := beq_eq_false_iff_ne.mpr hj
  constructor
  · simp only [split_row_line, hib, Bool.false_and, Bool.false_eq_true, if_false]
  · simp only [split_sep_widths, hjb, Bool.false_and, Bool.false_eq_true, if_false]

/-- C6 witness: row 0 renders identically with and without encoder data,
and the separator after row 3 (the one directly below the encoder row)
keeps the base widths `(1, 1)`. -/
theorem c6_encoders_affect_only_row3_witness :
    split_row_line (pyRep ' ' 40) 1 1 1 0 ["A", "B"] [["A", "B"], ["C", "D"]] []
      = split_row_line (pyRep ' ' 40) 1 1 1 0 ["A", "B"] [] []
    ∧ split_sep_widths 1 1 3 [["A", "B"], ["C", "D"]] = (1, 1) :=
  c6_encoders_affect_only_row3_and_sep_above (pyRep ' ' 40) 1 1 1 0 3 ["A", "B"]
    [["A", "B"], ["C", "D"]] [] (by decide) (by decide)

/-- C6 counterexample: five rows of two keys split at column 1 with two
two-entry encoders.  Line 8 (separator above row 3) and line 9 (the
encoder-bearing row 3) both measure 81 characters, but line 10 — the
separator immediately below row 3 — measures only 63: the separator below
the encoder row is NOT widened, contradicting the claim's equal-width
requirement for both adjacent separators. -/
theorem c6_sep_below_encoder_row_not_widened :
    (((generate_split_ascii_layer_lines "L" (List.replicate 5 ["A", "B"]) []
        [["A", "B"], ["C", "D"]] [] 1).getD []).map String.length).get? 8 = some 81
    ∧ (((generate_split_ascii_layer_lines "L" (List.replicate 5 ["A", "B"]) []
        [["A", "B"], ["C", "D"]] [] 1).getD []).map String.length).get? 9 = some 81
    ∧ (((generate_split_ascii_layer_lines "L" (List.replicate 5 ["A", "B"]) []
        [["A", "B"], ["C", "D"]] [] 1).getD []).map String.length).get? 10 = some 63 := by
  refine ⟨by decide, by decide, by decide⟩


end AsciiKeymap
